import Mathlib

/-!
# Verification of `asyncio_extras/threads.py`

A shallow embedding of the thread-switching utilities of `asyncio_extras`:

* `_ThreadSwitcher` — an asynchronous context manager whose `__await__`
  performs an event-loop-thread → worker-thread handoff of the awaiting
  coroutine (source lines 12–49);
* `_ThreadSwitcher.__call__` — the decorator producing a dual-mode wrapper
  (source lines 51–65);
* `call_in_executor` — the direct submit helper (source lines 110–130).

The embedding also models the CPython / asyncio primitives the source calls,
faithful to their documented behaviour:

* `asyncio.get_event_loop()` raises `RuntimeError` on a thread with no event
  loop (worker threads);
* `loop.run_in_executor(executor, cb)` checks that the loop is open, picks the
  loop's default executor when `executor is None`, and calls
  `executor.submit`, which raises
  `RuntimeError('cannot schedule new futures after shutdown')` on a shut-down
  pool — i.e. a submission failure is raised synchronously at the call site,
  no future is returned;
* `functools.partial(func, *args, **kwargs)` is a data record of the callable
  and its bound arguments;
* `threading.Event` is the single-use latch, `loop.call_soon` enqueues a
  callback that the loop thread runs only once control is back in the
  run-loop.
-/

namespace AsyncioExtras

/-- Python values, concretely: enough to state the claims and run witnesses. -/
inductive Val where
  | int (n : Int)
  | str (s : String)
  | noneV
  | execRef (shutdown : Bool)
  deriving DecidableEq, Repr

/-- The Python exceptions raised by the modelled code paths. -/
inductive PyError where
  | runtimeError (msg : String)
  | assertionError (msg : String)
  | zeroDivisionError
  deriving DecidableEq, Repr

/-- Outcome of running a Python callable: a return value or a raised
exception. -/
inductive Outcome where
  | ok (v : Val)
  | raises (e : PyError)
  deriving DecidableEq, Repr

/-- A Python callable: positional arguments and keyword arguments to an
outcome. -/
def Func : Type := List Val → List (String × Val) → Outcome

/-- A PEP 3148 executor handle; the only state the claims need is whether the
pool has been shut down. -/
structure Executor where
  shutdown : Bool
  deriving DecidableEq, Repr

/-- An asyncio event loop: whether it is closed, and its default executor
(used by `run_in_executor` when called with `executor=None`). -/
structure EventLoop where
  closed : Bool
  defaultExecutor : Executor
  deriving DecidableEq, Repr

/-- The thread a call runs on, for the purpose of `asyncio.get_event_loop`:
the event-loop thread carries its loop, a worker or unmanaged thread carries
none. -/
structure ThreadCtx where
  loop : Option EventLoop

/-- `asyncio.get_event_loop()`: returns the running thread's loop, or raises
`RuntimeError` when the thread has none (CPython behaviour on non-main
threads without a set loop). -/
def get_event_loop (ctx : ThreadCtx) : Except PyError EventLoop :=
  match ctx.loop with
  | some l => .ok l
  | none => .error (.runtimeError "There is no current event loop in thread")

/-- `functools.partial(func, *args, **kwargs)`: a record of the callable and
its bound arguments (CPython stores exactly these three fields). -/
structure BoundCall where
  func : Func
  args : List Val
  kwargs : List (String × Val)

/-- A pending `concurrent.futures` future as wrapped by `run_in_executor`:
the executor the work was submitted to and the bound call it will run. -/
structure PendingFuture where
  executor : Executor
  call : BoundCall

/-- `loop.run_in_executor(executor, cb)` (CPython `base_events.py`):
`self._check_closed()` raises if the loop is closed; a `None` executor is
replaced by the loop's default; `executor.submit(cb)` raises
`RuntimeError('cannot schedule new futures after shutdown')` if the pool was
shut down, otherwise a pending future for `cb` is returned. -/
def run_in_executor (loop : EventLoop) (executor : Option Executor)
    (cb : BoundCall) : Except PyError PendingFuture :=
  if loop.closed then
    .error (.runtimeError "Event loop is closed")
  else
    let ex := executor.getD loop.defaultExecutor
    if ex.shutdown then
      .error (.runtimeError "cannot schedule new futures after shutdown")
    else
      .ok ⟨ex, cb⟩

/-- What a pending future resolves to once a pool thread has run it: the
outcome of calling the bound callable with its bound arguments. A raised
exception becomes the failure of the future; a return value fulfills it. -/
def resolveFuture (fut : PendingFuture) : Outcome :=
  fut.call.func fut.call.args fut.call.kwargs

/-- Result of invoking the dispatch wrapper: the callable was either executed
synchronously in place, or submitted and a future returned, or the call
itself raised. -/
inductive CallResult where
  | direct (outcome : Outcome)
  | future (fut : PendingFuture)
  | raised (e : PyError)

/-- The wrapper built by `_ThreadSwitcher.__call__` (source lines 53–61):
try `get_event_loop()`; on `RuntimeError` (worker thread) run
`func(*args, **kwargs)` in place; otherwise build
`partial(func, *args, **kwargs)` and return
`loop.run_in_executor(self.executor, callback)`. -/
def wrapper (executor : Option Executor) (func : Func) (ctx : ThreadCtx)
    (args : List Val) (kwargs : List (String × Val)) : CallResult :=
  match get_event_loop ctx with
  | .error _ => .direct (func args kwargs)
  | .ok loop =>
    let callback : BoundCall := ⟨func, args, kwargs⟩
    match run_in_executor loop executor callback with
    | .ok fut => .future fut
    | .error e => .raised e

/-- A Python callable as seen by the decorator: its behaviour plus whether
`inspect.iscoroutinefunction` holds of it. -/
structure PyCallable where
  run : Func
  isCoroutineFunction : Bool

/-- `_ThreadSwitcher.__call__(func)` (source lines 51–65): defines `wrapper`,
then `assert not inspect.iscoroutinefunction(func)` — so decorating a
coroutine function raises `AssertionError` at wrap time and no wrapper is
ever returned — otherwise returns the wrapper. -/
def switcherCall (executor : Option Executor) (f : PyCallable) :
    Except PyError (ThreadCtx → List Val → List (String × Val) → CallResult) :=
  if f.isCoroutineFunction then
    .error (.assertionError "Cannot wrap coroutine functions to be run in an executor")
  else
    .ok (wrapper executor f.run)

/-- `call_in_executor(func, *args, executor=None, **kwargs)` (source lines
110–130): `callback = partial(func, *args, **kwargs)`; then
`get_event_loop().run_in_executor(executor, callback)` with no thread-role
branching and no exception handling. -/
def call_in_executor (func : Func) (args : List Val)
    (executor : Option Executor) (kwargs : List (String × Val))
    (ctx : ThreadCtx) : Except PyError PendingFuture :=
  let callback : BoundCall := ⟨func, args, kwargs⟩
  match get_event_loop ctx with
  | .error e => .error e
  | .ok loop => run_in_executor loop executor callback

/-- Reading an `Executor` out of a Python value bound to the `executor`
keyword (`None` / absent means "use the loop's default"). -/
def toExecutor : Option Val → Option Executor
  | some (.execRef b) => some ⟨b⟩
  | _ => none

/-- Python argument binding for the signature
`call_in_executor(func, *args, executor=None, **kwargs)`: a keyword literally
named `executor` at the call site binds to the helper's own `executor`
parameter, every other keyword flows into `**kwargs`. -/
def call_in_executor_pycall (func : Func) (args : List Val)
    (kw : List (String × Val)) (ctx : ThreadCtx) :
    Except PyError PendingFuture :=
  let executor := toExecutor (kw.lookup "executor")
  let rest := kw.filter (fun p => p.1 != "executor")
  call_in_executor func args executor rest ctx

/-- The `_ThreadSwitcher` instance state that `__await__` branches on
(source lines 12–17): the optional executor and the `exited` flag set by
`__aexit__`. -/
structure Switcher where
  executor : Option Executor
  exited : Bool
  deriving DecidableEq, Repr

/-- The observable actions a pass through `_ThreadSwitcher.__await__`
performs (source lines 23–44). -/
inductive AwaitEffect where
  | findCoro             -- lines 36–38: locate the awaiting coroutine via gc
  | createLatch          -- line 39: `event = Event()`
  | submitWorker         -- line 41: `loop.run_in_executor(self.executor, exec_when_ready)`
  | scheduleLatchRelease -- line 43: `loop.call_soon(event.set)`
  | yieldFuture          -- line 44: `yield future` (suspends on the worker future)
  | yieldPlain           -- line 33: bare `yield` on the already-exited branch
  deriving DecidableEq, Repr

/-- The sequence of actions one call of `_ThreadSwitcher.__await__` performs,
by the branch on `self.exited` (source lines 31–44): the exited branch is a
single bare yield, the first-pass branch runs the full handoff protocol. -/
def awaitEffects (s : Switcher) : List AwaitEffect :=
  if s.exited then
    [.yieldPlain]
  else
    [.findCoro, .createLatch, .submitWorker, .scheduleLatchRelease, .yieldFuture]

/-- What `coro.send(None)` inside the worker task reports back: the value of
`self.exited` at the moment the coroutine next yields. On the normal path
`__aexit__` has set it to `True`; if the continuation instead awaited again
inside the block it is still `False`. -/
structure SendOutcome where
  exited : Bool
  deriving DecidableEq, Repr

/-- The worker task `exec_when_ready` (source lines 24–29): `event.wait()`
blocks until the latch is signaled (`none` models "still blocked"); then
`coro.send(None)` resumes the continuation on the worker thread, and if
`self.exited` is not set when the coroutine yields again, the task raises
`RuntimeError('attempted to "await" in a worker thread')`. -/
def execWhenReady (latchSignaled : Bool) (send : SendOutcome) :
    Option (Except PyError Unit) :=
  if latchSignaled then
    some (if send.exited then .ok ()
          else .error (.runtimeError "attempted to \"await\" in a worker thread"))
  else
    none

/-!
## The handoff as a small-step interleaving system

One handoff through `async with threadpool()` involves two OS threads:

* the event-loop thread, which runs the continuation up to `yield future`
  (source lines 36–44), then returns to the asyncio run-loop, which runs
  `call_soon` callbacks and later resumes the parked task;
* the pool thread, which runs `exec_when_ready` (source lines 24–29):
  `event.wait()`, `coro.send(None)` (the continuation — block body and
  `__aexit__` — now executes on this thread up to the bare `yield` of the
  exited branch), then the exited check, after which the future resolves and
  the run-loop can resume the task on the event-loop thread.

`hstep` lists, for a global state, every successor some thread can produce;
interleavings are all paths of `hstep`. `call_soon` callbacks can only run
once the loop thread is back in its run-loop (after the yield), and
`event.wait()` can only pass once the latch is set — both are the documented
semantics of the asyncio / threading primitives the source uses.
-/

/-- Program counter of the event-loop thread during one handoff. -/
inductive SchedLoc where
  | beforeAwait   -- continuation running; about to execute lines 36–39 (find coro, create latch)
  | afterSubmit   -- line 41 done: worker task submitted; latch still unset
  | afterCallSoon -- line 43 done: `event.set` queued as a run-loop callback
  | parked        -- line 44 done: continuation yielded; loop thread in its run-loop
  | resumed       -- run-loop resumed the task after the worker future resolved
  deriving DecidableEq, Repr

/-- Program counter of the pool thread running `exec_when_ready`. -/
inductive WorkerLoc where
  | wNone      -- not yet submitted
  | wWait      -- blocked in `event.wait()` (line 25)
  | wBody      -- `coro.send(None)` running: the block body executes here (line 26)
  | wExit      -- continuation inside `__aexit__` (lines 46–49)
  | wAfterSend -- continuation yielded (bare yield); back in `exec_when_ready` at line 28
  | wDone      -- task returned; its future has resolved
  deriving DecidableEq, Repr

/-- Global state of one handoff: both program counters, the latch, the queued
`call_soon` callback, the switcher's `exited` flag, whether the worker future
has resolved, and how many times the latch has been signaled. -/
structure HState where
  sched : SchedLoc
  worker : WorkerLoc
  event : Bool
  pendingCb : Bool
  exited : Bool
  futureDone : Bool
  sets : Nat
  deriving DecidableEq, Repr

/-- The state in which a handoff starts: continuation on the loop thread, no
worker, latch unset, nothing queued, `exited = False`. -/
def hinit : HState :=
  ⟨.beforeAwait, .wNone, false, false, false, false, 0⟩

/-- All successor states of `s`: the loop thread's possible step followed by
the pool thread's possible step. -/
def hstep (s : HState) : List HState :=
  (match s.sched with
   | .beforeAwait =>
     -- lines 36–41: locate coro, `event = Event()`, submit `exec_when_ready`
     [{ s with sched := .afterSubmit, worker := .wWait }]
   | .afterSubmit =>
     -- line 43: `loop.call_soon(event.set)` queues the release callback
     [{ s with sched := .afterCallSoon, pendingCb := true }]
   | .afterCallSoon =>
     -- line 44: `yield future`; the continuation is now genuinely parked
     [{ s with sched := .parked }]
   | .parked =>
     -- the run-loop may run the queued `event.set`, and may resume the task
     -- once the worker future has resolved
     (if s.pendingCb then
        [{ s with pendingCb := false, event := true, sets := s.sets + 1 }]
      else []) ++
     (if s.futureDone then [{ s with sched := .resumed }] else [])
   | .resumed => []) ++
  (match s.worker with
   | .wNone => []
   | .wWait =>
     -- line 25: `event.wait()` passes only once the latch is signaled,
     -- then line 26 `coro.send(None)` puts the continuation on this thread
     if s.event then [{ s with worker := .wBody }] else []
   | .wBody =>
     -- block body finished; continuation enters `__aexit__`
     [{ s with worker := .wExit }]
   | .wExit =>
     -- lines 46–49: `self.exited = True`; then the exited branch of
     -- `__await__` does its bare `yield`, so `coro.send(None)` returns
     [{ s with worker := .wAfterSend, exited := true }]
   | .wAfterSend =>
     -- lines 28–29: `exited` holds on this path, so no raise; the task
     -- returns and its future resolves
     if s.exited then [{ s with worker := .wDone, futureDone := true }] else []
   | .wDone => [])

/-- States reachable from the start of a handoff under any interleaving. -/
inductive HReachable : HState → Prop where
  | init : HReachable hinit
  | next {s t : HState} : HReachable s → t ∈ hstep s → HReachable t

/-- The (finite) set of states reachable in a handoff, listed explicitly;
`hreach_closed` and `mem_hreach_of_hreachable` below prove it is exactly the
closure of `hinit` under `hstep`. -/
def hreach : List HState :=
  [⟨.beforeAwait, .wNone, false, false, false, false, 0⟩,
   ⟨.afterSubmit, .wWait, false, false, false, false, 0⟩,
   ⟨.afterCallSoon, .wWait, false, true, false, false, 0⟩,
   ⟨.parked, .wWait, false, true, false, false, 0⟩,
   ⟨.parked, .wWait, true, false, false, false, 1⟩,
   ⟨.parked, .wBody, true, false, false, false, 1⟩,
   ⟨.parked, .wExit, true, false, false, false, 1⟩,
   ⟨.parked, .wAfterSend, true, false, true, false, 1⟩,
   ⟨.parked, .wDone, true, false, true, true, 1⟩,
   ⟨.resumed, .wDone, true, false, true, true, 1⟩]

/-- `hreach` is closed under `hstep`. -/
theorem hreach_closed : ∀ s ∈ hreach, ∀ t ∈ hstep s, t ∈ hreach := by decide

/-- Every reachable state of the handoff is in the explicit list `hreach`. -/
theorem mem_hreach_of_hreachable {s : HState} (h : HReachable s) : s ∈ hreach := by
  induction h with
  | init => decide
  | next h hm ih => exact hreach_closed _ ih _ hm

/-- The event-loop thread is actively executing the continuation's code:
before the yield (lines 36–44) and after the final resume. -/
def schedRunsCont (s : HState) : Bool :=
  match s.sched with
  | .beforeAwait | .afterSubmit | .afterCallSoon | .resumed => true
  | .parked => false

/-- The pool thread is actively executing the continuation's code: inside
`coro.send(None)`, i.e. the block body and `__aexit__`. -/
def workerRunsCont (s : HState) : Bool :=
  match s.worker with
  | .wBody | .wExit => true
  | .wNone | .wWait | .wAfterSend | .wDone => false

/-- The worker task has passed `event.wait()` and resumed (or finished
resuming) the continuation. -/
def workerPastWait (s : HState) : Bool :=
  match s.worker with
  | .wBody | .wExit | .wAfterSend | .wDone => true
  | .wNone | .wWait => false

end AsyncioExtras

namespace AsyncioExtras

/-- C1: in every reachable state of a handoff, the latch release is only
queued as a run-loop callback at submission time (`sched = afterCallSoon`
has `pendingCb` set and the latch still unset); the latch is signaled only
once the continuation is parked in the run-loop (`event = true` implies the
loop thread is at `parked` or `resumed`); the latch is signaled at most once,
and exactly once by the time the handoff terminates; and the worker task is
past `event.wait()` — hence may have resumed the continuation — only when
the latch has been signaled. So the worker never resumes the continuation
before the scheduler has fully parked it. -/
theorem latch_release_ordering (s : HState) (h : HReachable s) :
    (s.sched = .afterCallSoon → s.pendingCb = true ∧ s.event = false) ∧
    (s.event = true → s.sched = .parked ∨ s.sched = .resumed) ∧
    s.sets ≤ 1 ∧
    ((hstep s).isEmpty = true → s.sets = 1) ∧
    (workerPastWait s = true → s.event = true) := by
  have hm := mem_hreach_of_hreachable h
  revert hm
  have : ∀ t ∈ hreach,
      (t.sched = .afterCallSoon → t.pendingCb = true ∧ t.event = false) ∧
      (t.event = true → t.sched = .parked ∨ t.sched = .resumed) ∧
      t.sets ≤ 1 ∧
      ((hstep t).isEmpty = true → t.sets = 1) ∧
      (workerPastWait t = true → t.event = true) := by decide
  exact this s

/-- C1 witness: the ordering invariant instantiated at the initial handoff
state, whose reachability is immediate. -/
theorem latch_release_ordering_witness :
    (hinit.sched = .afterCallSoon → hinit.pendingCb = true ∧ hinit.event = false) ∧
    (hinit.event = true → hinit.sched = .parked ∨ hinit.sched = .resumed) ∧
    hinit.sets ≤ 1 ∧
    ((hstep hinit).isEmpty = true → hinit.sets = 1) ∧
    (workerPastWait hinit = true → hinit.event = true) :=
  latch_release_ordering hinit HReachable.init

/-- C2: in every reachable state of a handoff, the continuation is actively
executing on at most one thread: loop-thread and pool-thread execution never
overlap; before the latch is signaled the pool thread never runs it; while
the pool thread runs it the loop thread is parked; and once the latch is
signaled, the loop thread only runs it again after the worker future has
resolved with `exited` set — i.e. after the block's exit. -/
theorem continuation_on_at_most_one_thread (s : HState) (h : HReachable s) :
    ¬(schedRunsCont s = true ∧ workerRunsCont s = true) ∧
    (s.event = false → workerRunsCont s = false) ∧
    (workerRunsCont s = true → s.event = true ∧ s.sched = .parked) ∧
    (s.event = true → schedRunsCont s = true →
      s.futureDone = true ∧ s.exited = true ∧ s.worker = .wDone) := by
  have hm := mem_hreach_of_hreachable h
  revert hm
  have : ∀ t ∈ hreach,
      ¬(schedRunsCont t = true ∧ workerRunsCont t = true) ∧
      (t.event = false → workerRunsCont t = false) ∧
      (workerRunsCont t = true → t.event = true ∧ t.sched = .parked) ∧
      (t.event = true → schedRunsCont t = true →
        t.futureDone = true ∧ t.exited = true ∧ t.worker = .wDone) := by decide
  exact this s

/-- C2 witness: the mutual-exclusion invariant at the reachable state in
which the block body is running on the pool thread. -/
theorem continuation_on_at_most_one_thread_witness :
    (¬(schedRunsCont ⟨.parked, .wBody, true, false, false, false, 1⟩ = true ∧
        workerRunsCont ⟨.parked, .wBody, true, false, false, false, 1⟩ = true)) ∧
    ((⟨.parked, .wBody, true, false, false, false, 1⟩ : HState).event = false →
      workerRunsCont ⟨.parked, .wBody, true, false, false, false, 1⟩ = false) ∧
    (workerRunsCont ⟨.parked, .wBody, true, false, false, false, 1⟩ = true →
      (⟨.parked, .wBody, true, false, false, false, 1⟩ : HState).event = true ∧
      (⟨.parked, .wBody, true, false, false, false, 1⟩ : HState).sched = .parked) ∧
    ((⟨.parked, .wBody, true, false, false, false, 1⟩ : HState).event = true →
      schedRunsCont ⟨.parked, .wBody, true, false, false, false, 1⟩ = true →
      (⟨.parked, .wBody, true, false, false, false, 1⟩ : HState).futureDone = true ∧
      (⟨.parked, .wBody, true, false, false, false, 1⟩ : HState).exited = true ∧
      (⟨.parked, .wBody, true, false, false, false, 1⟩ : HState).worker = .wDone) := by
  have h1 : HReachable hinit := HReachable.init
  have h2 : HReachable ⟨.afterSubmit, .wWait, false, false, false, false, 0⟩ :=
    HReachable.next h1 (by decide)
  have h3 : HReachable ⟨.afterCallSoon, .wWait, false, true, false, false, 0⟩ :=
    HReachable.next h2 (by decide)
  have h4 : HReachable ⟨.parked, .wWait, false, true, false, false, 0⟩ :=
    HReachable.next h3 (by decide)
  have h5 : HReachable ⟨.parked, .wWait, true, false, false, false, 1⟩ :=
    HReachable.next h4 (by decide)
  have h6 : HReachable ⟨.parked, .wBody, true, false, false, false, 1⟩ :=
    HReachable.next h5 (by decide)
  exact continuation_on_at_most_one_thread _ h6

/-- C3: calling the dispatch wrapper on a thread with no event loop (a worker
or unmanaged thread, where `get_event_loop()` raises) executes the callable
synchronously in place and returns its result directly — never a future. -/
theorem wrapper_no_loop_runs_inline (executor : Option Executor) (func : Func)
    (ctx : ThreadCtx) (args : List Val) (kwargs : List (String × Val))
    (h : ctx.loop = none) :
    wrapper executor func ctx args kwargs = .direct (func args kwargs) ∧
    ∀ fut : PendingFuture,
      wrapper executor func ctx args kwargs ≠ CallResult.future fut := by
  have heq : wrapper executor func ctx args kwargs = .direct (func args kwargs) := by
    simp [wrapper, get_event_loop, h]
  exact ⟨heq, fun fut hc => by rw [heq] at hc; exact CallResult.noConfusion hc⟩

/-- C3 witness: a concrete wrapped callable invoked on a loop-less thread
returns its value directly. -/
theorem wrapper_no_loop_runs_inline_witness :
    wrapper none (fun _ _ => Outcome.ok (Val.int 7)) ⟨none⟩ [] [] =
      .direct (Outcome.ok (Val.int 7)) ∧
    ∀ fut : PendingFuture,
      wrapper none (fun _ _ => Outcome.ok (Val.int 7)) ⟨none⟩ [] [] ≠
        CallResult.future fut :=
  wrapper_no_loop_runs_inline none (fun _ _ => Outcome.ok (Val.int 7)) ⟨none⟩ [] [] rfl

/-- C4: calling the dispatch wrapper on the event-loop thread submits the
callable bound with its positional and keyword arguments to the executor
(defaulting to the loop's) and returns the pending future with the bound
call still unevaluated; resolving that future yields exactly what the direct
call would. -/
theorem wrapper_scheduler_submits (executor : Option Executor) (func : Func)
    (ctx : ThreadCtx) (loop : EventLoop) (args : List Val)
    (kwargs : List (String × Val))
    (hl : ctx.loop = some loop) (hopen : loop.closed = false)
    (hex : (executor.getD loop.defaultExecutor).shutdown = false) :
    wrapper executor func ctx args kwargs =
      .future ⟨executor.getD loop.defaultExecutor, ⟨func, args, kwargs⟩⟩ ∧
    resolveFuture ⟨executor.getD loop.defaultExecutor, ⟨func, args, kwargs⟩⟩ =
      func args kwargs := by
  refine ⟨?_, rfl⟩
  simp [wrapper, get_event_loop, hl, run_in_executor, hopen, hex]

/-- C4 witness: a concrete call from the loop thread returns the pending
future for the bound call, and the future resolves to the direct result. -/
theorem wrapper_scheduler_submits_witness :
    wrapper none (fun a _ => Outcome.ok (Val.int a.length)) ⟨some ⟨false, ⟨false⟩⟩⟩
        [Val.int 1, Val.int 2] [] =
      .future ⟨⟨false⟩, ⟨fun a _ => Outcome.ok (Val.int a.length),
        [Val.int 1, Val.int 2], []⟩⟩ ∧
    resolveFuture ⟨⟨false⟩, ⟨fun a _ => Outcome.ok (Val.int a.length),
        [Val.int 1, Val.int 2], []⟩⟩ =
      (fun a (_ : List (String × Val)) => Outcome.ok (Val.int a.length))
        [Val.int 1, Val.int 2] [] :=
  wrapper_scheduler_submits none (fun a _ => Outcome.ok (Val.int a.length))
    ⟨some ⟨false, ⟨false⟩⟩⟩ ⟨false, ⟨false⟩⟩ [Val.int 1, Val.int 2] [] rfl rfl rfl

/-- C5: applying the decorator to a coroutine function fails at wrap time
with the `AssertionError` of source line 63, so no wrapper is ever returned
and no call to a wrapped function can be attempted. -/
theorem wrap_coroutine_function_rejected (executor : Option Executor)
    (f : PyCallable) (h : f.isCoroutineFunction = true) :
    switcherCall executor f =
      .error (.assertionError "Cannot wrap coroutine functions to be run in an executor") := by
  simp [switcherCall, h]

/-- C5 witness: wrapping a concrete coroutine function raises the assertion
error. -/
theorem wrap_coroutine_function_rejected_witness :
    switcherCall none ⟨fun _ _ => Outcome.ok Val.noneV, true⟩ =
      .error (.assertionError "Cannot wrap coroutine functions to be run in an executor") :=
  wrap_coroutine_function_rejected none ⟨fun _ _ => Outcome.ok Val.noneV, true⟩ rfl

/-- C6: `call_in_executor` binds the callable with its positional and keyword
arguments and submits it — no thread-role branching, no inline execution;
the returned future resolves to the call's outcome: the return value on
success, and the raised exception (never a silent `None`) on failure. -/
theorem call_in_executor_always_submits (func : Func) (args : List Val)
    (executor : Option Executor) (kwargs : List (String × Val))
    (ctx : ThreadCtx) (loop : EventLoop)
    (hl : ctx.loop = some loop) (hopen : loop.closed = false)
    (hex : (executor.getD loop.defaultExecutor).shutdown = false) :
    call_in_executor func args executor kwargs ctx =
      .ok ⟨executor.getD loop.defaultExecutor, ⟨func, args, kwargs⟩⟩ ∧
    resolveFuture ⟨executor.getD loop.defaultExecutor, ⟨func, args, kwargs⟩⟩ =
      func args kwargs ∧
    ∀ e : PyError, func args kwargs = .raises e →
      resolveFuture ⟨executor.getD loop.defaultExecutor, ⟨func, args, kwargs⟩⟩ =
          .raises e ∧
      ∀ v : Val,
        resolveFuture ⟨executor.getD loop.defaultExecutor, ⟨func, args, kwargs⟩⟩ ≠
          Outcome.ok v := by
  refine ⟨?_, rfl, fun e he => ⟨he, fun v hv => ?_⟩⟩
  · simp [call_in_executor, get_event_loop, hl, run_in_executor, hopen, hex]
  · have hv' : func args kwargs = Outcome.ok v := hv
    rw [he] at hv'
    exact Outcome.noConfusion hv'

/-- C6 witness: submitting a division that raises `ZeroDivisionError`
yields a future resolving to that failure, not to a value. -/
theorem call_in_executor_always_submits_witness :
    call_in_executor (fun _ _ => Outcome.raises PyError.zeroDivisionError)
        [Val.int 1, Val.int 0] none [] ⟨some ⟨false, ⟨false⟩⟩⟩ =
      .ok ⟨⟨false⟩, ⟨fun _ _ => Outcome.raises PyError.zeroDivisionError,
        [Val.int 1, Val.int 0], []⟩⟩ ∧
    resolveFuture ⟨⟨false⟩, ⟨fun _ _ => Outcome.raises PyError.zeroDivisionError,
        [Val.int 1, Val.int 0], []⟩⟩ =
      (fun (_ : List Val) (_ : List (String × Val)) =>
        Outcome.raises PyError.zeroDivisionError) [Val.int 1, Val.int 0] [] ∧
    ∀ e : PyError,
      (fun (_ : List Val) (_ : List (String × Val)) =>
        Outcome.raises PyError.zeroDivisionError) [Val.int 1, Val.int 0] [] =
          .raises e →
      resolveFuture ⟨⟨false⟩, ⟨fun _ _ => Outcome.raises PyError.zeroDivisionError,
          [Val.int 1, Val.int 0], []⟩⟩ = .raises e ∧
      ∀ v : Val,
        resolveFuture ⟨⟨false⟩, ⟨fun _ _ => Outcome.raises PyError.zeroDivisionError,
          [Val.int 1, Val.int 0], []⟩⟩ ≠ Outcome.ok v :=
  call_in_executor_always_submits
    (fun _ _ => Outcome.raises PyError.zeroDivisionError)
    [Val.int 1, Val.int 0] none [] ⟨some ⟨false, ⟨false⟩⟩⟩ ⟨false, ⟨false⟩⟩
    rfl rfl rfl

/-- C7: a pass through `__await__` with `exited` already true performs no
further handoff: no latch is created and no worker task is submitted — the
only action is the bare yield that hands control back. -/
theorem await_after_exit_no_handoff (s : Switcher) (h : s.exited = true) :
    awaitEffects s = [.yieldPlain] ∧
    AwaitEffect.createLatch ∉ awaitEffects s ∧
    AwaitEffect.submitWorker ∉ awaitEffects s := by
  simp [awaitEffects, h]

/-- C7 witness: the exited branch of a concrete switcher does nothing but
the bare yield. -/
theorem await_after_exit_no_handoff_witness :
    awaitEffects ⟨none, true⟩ = [.yieldPlain] ∧
    AwaitEffect.createLatch ∉ awaitEffects ⟨none, true⟩ ∧
    AwaitEffect.submitWorker ∉ awaitEffects ⟨none, true⟩ :=
  await_after_exit_no_handoff ⟨none, true⟩ rfl

/-- C8: if the continuation resumed by `coro.send(None)` on the worker
thread yields again while `exited` is still false (it attempted another
scheduler-style suspension inside the block), `exec_when_ready` raises
`RuntimeError('attempted to "await" in a worker thread')` rather than
silently misbehaving. -/
theorem worker_thread_await_rejected (send : SendOutcome)
    (h : send.exited = false) :
    execWhenReady true send =
      some (.error (.runtimeError "attempted to \"await\" in a worker thread")) := by
  simp [execWhenReady, h]

/-- C8 witness: a send outcome that yielded before exit triggers the
RuntimeError. -/
theorem worker_thread_await_rejected_witness :
    execWhenReady true ⟨false⟩ =
      some (.error (.runtimeError "attempted to \"await\" in a worker thread")) :=
  worker_thread_await_rejected ⟨false⟩ rfl

/-- C9 counterexample: with a shut-down executor, the wrapper call on the
loop thread returns no future at all — `run_in_executor` raises
synchronously — so the submission failure is not carried by a returned
deferred result, contradicting the claim as stated. -/
theorem submit_failure_returns_no_future :
    ¬ ∃ fut : PendingFuture,
      wrapper (some ⟨true⟩) (fun _ _ => Outcome.ok Val.noneV)
        ⟨some ⟨false, ⟨false⟩⟩⟩ [] [] = CallResult.future fut := by
  rintro ⟨fut, h⟩
  simp [wrapper, get_event_loop, run_in_executor] at h

/-- C9 (amended): a failure of the executor's submit operation propagates to
the caller as a synchronously raised exception, caught nowhere by the
wrapper or the helper — never dropped silently. -/
theorem submit_failure_raises_to_caller (executor : Executor) (func : Func)
    (ctx : ThreadCtx) (loop : EventLoop) (args : List Val)
    (kwargs : List (String × Val))
    (hl : ctx.loop = some loop) (hopen : loop.closed = false)
    (hshut : executor.shutdown = true) :
    wrapper (some executor) func ctx args kwargs =
      .raised (.runtimeError "cannot schedule new futures after shutdown") ∧
    call_in_executor func args (some executor) kwargs ctx =
      .error (.runtimeError "cannot schedule new futures after shutdown") := by
  constructor <;>
    simp [wrapper, call_in_executor, get_event_loop, hl, run_in_executor,
      hopen, hshut]

/-- C9 witness: a concrete shut-down executor makes both the wrapper and the
helper raise the shutdown RuntimeError to the caller. -/
theorem submit_failure_raises_to_caller_witness :
    wrapper (some ⟨true⟩) (fun _ _ => Outcome.ok (Val.int 5))
        ⟨some ⟨false, ⟨false⟩⟩⟩ [] [] =
      .raised (.runtimeError "cannot schedule new futures after shutdown") ∧
    call_in_executor (fun _ _ => Outcome.ok (Val.int 5)) [] (some ⟨true⟩) []
        ⟨some ⟨false, ⟨false⟩⟩⟩ =
      .error (.runtimeError "cannot schedule new futures after shutdown") :=
  submit_failure_raises_to_caller ⟨true⟩ (fun _ _ => Outcome.ok (Val.int 5))
    ⟨some ⟨false, ⟨false⟩⟩⟩ ⟨false, ⟨false⟩⟩ [] [] rfl rfl rfl

/-- C10: the keyword named `executor` at a `call_in_executor` call site is
consumed by the helper itself — it selects the pool the bound call is
submitted to — and is never forwarded to the target callable, which is
invoked with exactly the positional arguments and the remaining keywords. -/
theorem executor_keyword_not_forwarded (func : Func) (args : List Val)
    (kw : List (String × Val)) (ctx : ThreadCtx) (loop : EventLoop)
    (hl : ctx.loop = some loop) (hopen : loop.closed = false)
    (hex : ((toExecutor (kw.lookup "executor")).getD
            loop.defaultExecutor).shutdown = false) :
    call_in_executor_pycall func args kw ctx =
      .ok ⟨(toExecutor (kw.lookup "executor")).getD loop.defaultExecutor,
           ⟨func, args, kw.filter (fun p => p.1 != "executor")⟩⟩ ∧
    "executor" ∉ (kw.filter (fun p => p.1 != "executor")).map Prod.fst ∧
    resolveFuture ⟨(toExecutor (kw.lookup "executor")).getD loop.defaultExecutor,
           ⟨func, args, kw.filter (fun p => p.1 != "executor")⟩⟩ =
      func args (kw.filter (fun p => p.1 != "executor")) := by
  refine ⟨?_, ?_, rfl⟩
  · simp [call_in_executor_pycall, call_in_executor, get_event_loop, hl,
      run_in_executor, hopen, hex]
  · intro hmem
    simp only [List.mem_map, List.mem_filter, bne_iff_ne] at hmem
    obtain ⟨p, ⟨_, hne⟩, hp⟩ := hmem
    exact hne hp

/-- C10 witness: with a call site passing `executor=<pool>` and `x=3`, the
pool is selected from the `executor` keyword and the bound call carries only
the remaining keyword. -/
theorem executor_keyword_not_forwarded_witness :
    call_in_executor_pycall (fun _ kw => Outcome.ok (Val.int kw.length))
        [Val.int 1] [("executor", Val.execRef false), ("x", Val.int 3)]
        ⟨some ⟨false, ⟨true⟩⟩⟩ =
      .ok ⟨(toExecutor ([("executor", Val.execRef false),
              ("x", Val.int 3)].lookup "executor")).getD ⟨true⟩,
           ⟨fun _ kw => Outcome.ok (Val.int kw.length), [Val.int 1],
            [("executor", Val.execRef false),
             ("x", Val.int 3)].filter (fun p => p.1 != "executor")⟩⟩ ∧
    "executor" ∉ ([("executor", Val.execRef false),
        ("x", Val.int 3)].filter (fun p => p.1 != "executor")).map Prod.fst ∧
    resolveFuture ⟨(toExecutor ([("executor", Val.execRef false),
            ("x", Val.int 3)].lookup "executor")).getD ⟨true⟩,
         ⟨fun _ kw => Outcome.ok (Val.int kw.length), [Val.int 1],
          [("executor", Val.execRef false),
           ("x", Val.int 3)].filter (fun p => p.1 != "executor")⟩⟩ =
      (fun (_ : List Val) (kw : List (String × Val)) =>
        Outcome.ok (Val.int kw.length)) [Val.int 1]
        ([("executor", Val.execRef false),
          ("x", Val.int 3)].filter (fun p => p.1 != "executor")) :=
  executor_keyword_not_forwarded (fun _ kw => Outcome.ok (Val.int kw.length))
    [Val.int 1] [("executor", Val.execRef false), ("x", Val.int 3)]
    ⟨some ⟨false, ⟨true⟩⟩⟩ ⟨false, ⟨true⟩⟩ rfl rfl rfl

end AsyncioExtras
